import Mathlib

/-!
Verification development for the task-duration / multi-stop route estimation
engine (backend/app/services/task_duration_predictor.py and
backend/app/services/multi_destination_predictor.py).

The engine is embedded shallowly:
* machine floats become exact rationals, with Python round(x, 2) modelled by
  round2 below;
* the geodesic great-circle distance (geopy) is an abstract parameter
  gd : Coord → Coord → ℚ, since the claims are about how the code uses the
  distance, not about the WGS-84 formula itself;
* the outcome of one HTTP call to the directions provider is an explicit
  ApiOutcome value (timeout / transport error / parsed response), and in the
  multi-destination loop an oracle api : Coord → Coord → ApiOutcome gives the
  outcome of the provider call made from the queried origin to the queried
  destination;
* the fitted regression model output and the employee statistics rows are
  abstract rational parameters (they are external artifacts read at runtime).
-/

namespace TaskRoute

/-- Python round(x, 2): round to two decimal places. -/
def round2 (q : ℚ) : ℚ := (round (q * 100) : ℤ) / 100

/-- A latitude/longitude pair. -/
structure Coord where
  lat : ℚ
  lng : ℚ
deriving DecidableEq, Repr

/-- Coordinate range validation in GoogleDirectionsService.get_route_info:
latitude within plus/minus 90, longitude within plus/minus 180. -/
def validCoord (c : Coord) : Bool :=
  (-90 ≤ c.lat && c.lat ≤ 90) && (-180 ≤ c.lng && c.lng ≤ 180)

/-- The reference-region (Philippines) bounding box used by
GoogleDirectionsService._is_route_impossible: 4.5°N..21°N, 116°E..127°E. -/
def inPhilippines (c : Coord) : Bool :=
  ((9 : ℚ)/2 ≤ c.lat && c.lat ≤ 21) && ((116 : ℚ) ≤ c.lng && c.lng ≤ 127)

/-- The fixed keyword list of _is_route_impossible check 4. -/
def impossibleKeywords : List String :=
  ["cannot be reached", "not accessible by", "no route", "different countries",
   "ferry", "body of water"]

/-- needle is an initial segment of hay. -/
def charsStartWith : List Char → List Char → Bool
  | [], _ => true
  | _ :: _, [] => false
  | a :: as, b :: bs => a = b && charsStartWith as bs

/-- needle occurs as a contiguous segment of hay. -/
def charsContain (needle : List Char) : List Char → Bool
  | [] => needle.isEmpty
  | c :: rest => charsStartWith needle (c :: rest) || charsContain needle rest

/-- needle occurs as a contiguous substring of hay. -/
def strContains (hay needle : String) : Bool :=
  charsContain needle.toList hay.toList

/-- Check 4 of _is_route_impossible: the lowercased provider error message
contains one of the fixed impossibility keywords. -/
def hasImpossibleKeyword : Option String → Bool
  | none => false
  | some msg => impossibleKeywords.any (fun k => strContains msg.toLower k)

/-- The reason strings returned by _is_route_impossible, abstracted to tags. -/
inductive ImpossibleReason where
  | zeroResults
  | destOutsidePhilippines
  | originOutsidePhilippines
  | bothOutsidePhilippines
  | extremeDistance
  | apiErrorKeyword
deriving DecidableEq, Repr

/-- GoogleDirectionsService._is_route_impossible: the four checks in source
order. gd is the geodesic straight-line distance in km. -/
def isRouteImpossible (gd : Coord → Coord → ℚ) (origin dest : Coord)
    (status : String) (errorMessage : Option String) : Option ImpossibleReason :=
  if status = "ZERO_RESULTS" then some .zeroResults
  else if inPhilippines origin && !inPhilippines dest then some .destOutsidePhilippines
  else if !inPhilippines origin && inPhilippines dest then some .originOutsidePhilippines
  else if !inPhilippines origin && !inPhilippines dest then some .bothOutsidePhilippines
  else if gd origin dest > 500 then some .extremeDistance
  else if hasImpossibleKeyword errorMessage then some .apiErrorKeyword
  else none

/-- The first route leg of a parsed provider response: distance in meters,
duration in seconds, and the duration-in-traffic field when present. -/
structure ProviderLeg where
  distanceMeters : ℕ
  durationSeconds : ℕ
  durationInTrafficSeconds : Option ℕ
deriving DecidableEq, Repr

/-- Outcome of one HTTP call to the directions provider.  timeout models
requests.exceptions.Timeout, requestError models RequestException (including
a non-2xx raise_for_status), otherError models any other exception while
parsing; response is a parsed JSON body carrying its status string, optional
error_message, and the first leg of the first route when one exists. -/
inductive ApiOutcome where
  | timeout
  | requestError
  | otherError
  | response (status : String) (errorMessage : Option String) (leg : Option ProviderLeg)
deriving DecidableEq, Repr

/-- The three shapes of dictionary returned by get_route_info (and hence by
get_route_with_conditions): an impossible-route marker carrying only a reason,
a provider success carrying distance/duration and the live-traffic flag, or a
fallback estimate. -/
inductive RouteResult where
  | impossible (reason : ImpossibleReason)
  | success (distanceKm : ℚ) (durationMinutes : ℚ) (hasTrafficData : Bool)
  | fallback (distanceKm : ℚ) (durationMinutes : ℚ)
deriving DecidableEq, Repr

/-- The fixed speed table of _fallback_calculation, keyed by provider mode,
with the source's default of 20 km/h for unknown modes. -/
def speeds (mode : String) : ℚ :=
  if mode = "driving" then 30
  else if mode = "walking" then 5
  else if mode = "bicycling" then 15
  else if mode = "transit" then 20
  else 20

/-- The duration reported by _fallback_calculation for a straight-line
distance of distKm kilometers. -/
def fallbackDuration (distKm : ℚ) (mode : String) : ℚ :=
  round2 (distKm * (13/10) / speeds mode * 60)

/-- GoogleDirectionsService._fallback_calculation: straight-line distance
times the 1.3 road factor, divided by the mode speed, in minutes.  gd is a
total function here; geopy's geodesic actually raises for an out-of-range
latitude, an error path made explicit in getRouteInfoPy below (every other
call site of this function only sees valid coordinates). -/
def fallbackCalculation (gd : Coord → Coord → ℚ) (origin dest : Coord)
    (mode : String) : RouteResult :=
  .fallback (round2 (gd origin dest * (13/10))) (fallbackDuration (gd origin dest) mode)

/-- Processing of a parsed provider response inside get_route_info: the
impossibility checks come first, then the status=OK success path (preferring
duration_in_traffic when present; a missing route leg raises and is caught by
the generic handler, degrading to fallback), and any other status degrades to
the fallback calculation. -/
def responseRoute (gd : Coord → Coord → ℚ) (origin dest : Coord) (mode : String)
    (status : String) (errorMessage : Option String) (leg : Option ProviderLeg) :
    RouteResult :=
  match isRouteImpossible gd origin dest status errorMessage with
  | some reason => .impossible reason
  | none =>
    if status = "OK" then
      match leg with
      | some l =>
        .success (round2 ((l.distanceMeters : ℚ) / 1000))
          (round2 ((l.durationInTrafficSeconds.getD l.durationSeconds : ℚ) / 60))
          l.durationInTrafficSeconds.isSome
      | none => fallbackCalculation gd origin dest mode
    else fallbackCalculation gd origin dest mode

/-- GoogleDirectionsService.get_route_info: coordinate validation first (to
fallback on failure), then the provider call, then the response processing;
timeouts and transport errors degrade to the fallback calculation.  Faithful
whenever both latitudes are in range; the invalid-latitude branch actually
lets the geodesic ValueError escape, which getRouteInfoPy below models. -/
def getRouteInfo (gd : Coord → Coord → ℚ) (origin dest : Coord) (mode : String)
    (outcome : ApiOutcome) : RouteResult :=
  if !validCoord origin then fallbackCalculation gd origin dest mode
  else if !validCoord dest then fallbackCalculation gd origin dest mode
  else
    match outcome with
    | .timeout => fallbackCalculation gd origin dest mode
    | .requestError => fallbackCalculation gd origin dest mode
    | .otherError => fallbackCalculation gd origin dest mode
    | .response status errorMessage leg =>
      responseRoute gd origin dest mode status errorMessage leg

/-- The method-to-provider-mode table of get_route_with_conditions, with the
source's default of driving. -/
def modeMapping (method : String) : String :=
  if method = "Drive" then "driving"
  else if method = "Walk" then "walking"
  else if method = "Bike" then "bicycling"
  else if method = "Public Transport" then "transit"
  else "driving"

/-- The condition multiplier table applied by get_route_with_conditions when
the provider succeeded without live-traffic data. -/
def conditionFactor (conditions : String) : ℚ :=
  if conditions = "Heavy Traffic" then 2
  else if conditions = "Rain" then 7/5
  else if conditions = "Road Work" then 3/2
  else if conditions = "Rush Hour" then 9/5
  else if conditions = "Normal" then 1
  else if conditions = "Holiday" then 3/4
  else 1

/-- GoogleDirectionsService.get_route_with_conditions: map the method to a
provider mode, call get_route_info, and on a success without live-traffic data
multiply the duration by the condition factor. -/
def getRouteWithConditions (gd : Coord → Coord → ℚ) (origin dest : Coord)
    (method conditions : String) (outcome : ApiOutcome) : RouteResult :=
  match getRouteInfo gd origin dest (modeMapping method) outcome with
  | .success d dur hasTraffic =>
    if hasTraffic then .success d dur hasTraffic
    else .success d (dur * conditionFactor conditions) hasTraffic
  | r => r

/-- TaskDurationPredictor._should_trust_travel_time: the five trust-arbitration
checks in source order. -/
def shouldTrustTravelTime (distanceKm travelTimeMin predictedDuration : ℚ) : Bool :=
  if distanceKm < 3/10 then true
  else if distanceKm > 100 then true
  else if travelTimeMin > 1 && predictedDuration > travelTimeMin * 5 then true
  else if travelTimeMin > predictedDuration * 3 then true
  else if predictedDuration < travelTimeMin * (4/5) then true
  else false

/-- The duration TaskDurationPredictor.predict settles on before rounding:
the arbitrated value (travel time + 2 under 0.3 km, travel time when physics
is trusted otherwise, else the raw model estimate), floored at 1 minute. -/
def finalDuration (distanceKm travelTimeMin modelPrediction : ℚ) : ℚ :=
  max 1 (if shouldTrustTravelTime distanceKm travelTimeMin modelPrediction then
           (if distanceKm < 3/10 then travelTimeMin + 2 else travelTimeMin)
         else modelPrediction)

/-- The fields of the prediction dictionary built by
TaskDurationPredictor.predict that the claims are about. -/
structure PredictOutput where
  predictedDurationMinutes : ℚ
  confidenceIntervalLower : ℚ
  confidenceIntervalUpper : ℚ
  travelTimeMinutes : ℚ
  workTimeMinutes : ℚ
  usedTravelBasedPrediction : Bool
deriving DecidableEq, Repr

/-- Result of TaskDurationPredictor.predict: either the impossible-route error
dictionary or the prediction dictionary. -/
inductive PredictResult where
  | impossibleRoute (reason : ImpossibleReason)
  | ok (out : PredictOutput)
deriving DecidableEq, Repr

/-- Steps 5 and 6 of TaskDurationPredictor.predict, starting from the routed
distance and travel time, the raw model estimate, and the employee's
historical standard deviation. -/
def predictFrom (distanceKm travelTimeMin modelPrediction empStdDuration : ℚ) :
    PredictResult :=
  let predictedDuration := finalDuration distanceKm travelTimeMin modelPrediction
  let workTime := max 0 (predictedDuration - travelTimeMin)
  let confidenceLower := predictedDuration - (49/25) * empStdDuration
  let confidenceUpper := predictedDuration + (49/25) * empStdDuration
  .ok {
    predictedDurationMinutes := round2 (max 0 predictedDuration)
    confidenceIntervalLower := round2 (max 0 confidenceLower)
    confidenceIntervalUpper := round2 (max 0 confidenceUpper)
    travelTimeMinutes := round2 travelTimeMin
    workTimeMinutes := round2 workTime
    usedTravelBasedPrediction :=
      shouldTrustTravelTime distanceKm travelTimeMin modelPrediction }

/-- TaskDurationPredictor.predict dispatched on the route result: an
impossible route propagates immediately without invoking the model; otherwise
the stored distance and duration feed the arbitration. -/
def predictCore (route : RouteResult) (modelPrediction empStdDuration : ℚ) :
    PredictResult :=
  match route with
  | .impossible reason => .impossibleRoute reason
  | .success d t _ => predictFrom d t modelPrediction empStdDuration
  | .fallback d t => predictFrom d t modelPrediction empStdDuration

/-- The whole single-destination pipeline: route with conditions, then
predict. -/
def predict (gd : Coord → Coord → ℚ) (origin dest : Coord)
    (method conditions : String) (outcome : ApiOutcome)
    (modelPrediction empStdDuration : ℚ) : PredictResult :=
  predictCore (getRouteWithConditions gd origin dest method conditions outcome)
    modelPrediction empStdDuration

/-- One stop of a multi-destination request: sequence number, name and
coordinates. -/
structure Destination where
  sequence : ℤ
  locationName : String
  latitude : ℚ
  longitude : ℚ
deriving DecidableEq, Repr

/-- The coordinate of a destination. -/
def destCoord (d : Destination) : Coord := ⟨d.latitude, d.longitude⟩

/-- One computed leg of the multi-destination loop.  Reported fields carry the
values the source rounds into the leg dictionary; rawTravelTime additionally
records the unrounded travel time the leg contributed to the running totals.
Times are minutes since the scheduled start. -/
structure LegOut where
  legNumber : ℕ
  fromLocation : String
  toLocation : String
  distanceKm : ℚ
  travelTimeMinutes : ℚ
  rawTravelTime : ℚ
  departureTime : ℚ
  arrivalTime : ℚ
  hasTrafficData : Bool
deriving DecidableEq, Repr

/-- One entry of the impossible_legs list. -/
structure ImpossibleLeg where
  legNumber : ℕ
  fromLocation : String
  toLocation : String
  reason : ImpossibleReason
deriving DecidableEq, Repr

/-- The loop state of predict_multi_destination: accumulated legs and totals,
the impossible legs seen so far, and the simulated position and clock. -/
structure LegState where
  legs : List LegOut
  totalDistanceKm : ℚ
  totalTravelTimeMin : ℚ
  impossibleLegs : List ImpossibleLeg
  currentPos : Coord
  currentTime : ℚ
deriving DecidableEq, Repr

/-- The successful-leg body of the loop: accumulate totals, append the leg
record, and advance the simulated position and clock to the destination. -/
def legAdvance (i : ℕ) (fromName : String) (dest : Destination)
    (distanceKm travelTime : ℚ) (hasTraffic : Bool) (st : LegState) : LegState :=
  let arrival := st.currentTime + travelTime
  { legs := st.legs ++
      [{ legNumber := i + 1, fromLocation := fromName,
         toLocation := dest.locationName, distanceKm := round2 distanceKm,
         travelTimeMinutes := round2 travelTime, rawTravelTime := travelTime,
         departureTime := st.currentTime, arrivalTime := arrival,
         hasTrafficData := hasTraffic }]
    totalDistanceKm := st.totalDistanceKm + distanceKm
    totalTravelTimeMin := st.totalTravelTimeMin + travelTime
    impossibleLegs := st.impossibleLegs
    currentPos := destCoord dest
    currentTime := arrival }

/-- One iteration of the leg loop: route from the current simulated position
to the destination; an impossible route only records an impossible leg (it
does not advance position, clock, totals or legs), otherwise the leg is taken.
The fallback dictionary carries no has_traffic_data key, so that flag reads
false there. -/
def legStep (gd : Coord → Coord → ℚ) (api : Coord → Coord → ApiOutcome)
    (method conditions : String) (i : ℕ) (fromName : String)
    (dest : Destination) (st : LegState) : LegState :=
  match getRouteWithConditions gd st.currentPos (destCoord dest) method conditions
      (api st.currentPos (destCoord dest)) with
  | .impossible reason =>
    { st with impossibleLegs := st.impossibleLegs ++
        [{ legNumber := i + 1, fromLocation := fromName,
           toLocation := dest.locationName, reason := reason }] }
  | .success d t hasTraffic => legAdvance i fromName dest d t hasTraffic st
  | .fallback d t => legAdvance i fromName dest d t false st

/-- The for-loop over the sorted destination list.  fromName is the
from_location label of the next leg: Employee Start for the first leg, and
the previous destination's name afterwards, whether or not that previous leg
was possible. -/
def legLoop (gd : Coord → Coord → ℚ) (api : Coord → Coord → ApiOutcome)
    (method conditions : String) :
    ℕ → String → List Destination → LegState → LegState
  | _, _, [], st => st
  | i, fromName, d :: rest, st =>
    legLoop gd api method conditions (i + 1) d.locationName rest
      (legStep gd api method conditions i fromName d st)

/-- The sort key comparison of predict_multi_destination: ascending sequence
number. -/
def seqLE (a b : Destination) : Bool := a.sequence ≤ b.sequence

/-- sorted(destinations, key=sequence): a stable merge sort by sequence. -/
def sortBySequence (l : List Destination) : List Destination :=
  l.mergeSort seqLE

/-- The fields of the multi-destination prediction dictionary the claims are
about. -/
structure MultiOutput where
  predictedDurationMinutes : ℚ
  confidenceIntervalLower : ℚ
  confidenceIntervalUpper : ℚ
  totalTravelTimeMinutes : ℚ
  totalWorkTimeMinutes : ℚ
  totalDistanceKm : ℚ
  numberOfStops : ℕ
  numberOfLegs : ℕ
  legs : List LegOut
deriving DecidableEq, Repr

/-- Result of predict_multi_destination: the ValueError path for fewer than 2
destinations (caught and returned as an error dictionary before any leg is
routed), the impossible-route dictionary listing every failing leg, or the
prediction dictionary. -/
inductive MultiResult where
  | invalidInput
  | impossibleRoute (impossibleLegs : List ImpossibleLeg) (totalDestinations : ℕ)
  | ok (out : MultiOutput)
deriving DecidableEq, Repr

/-- The loop state before the first leg: employee position, clock at the
scheduled start. -/
def initialLegState (employee : Coord) : LegState :=
  { legs := [], totalDistanceKm := 0, totalTravelTimeMin := 0,
    impossibleLegs := [], currentPos := employee, currentTime := 0 }

/-- The tail of predict_multi_destination, applied to the final loop state:
fail if any leg was impossible, else total duration is the accumulated travel
time and the confidence margin is 1.96 times the employee standard deviation
times the number of destinations. -/
def finishMulti (destinations : List Destination) (empStdDuration : ℚ)
    (st : LegState) : MultiResult :=
  if st.impossibleLegs.isEmpty then
    .ok {
      predictedDurationMinutes := round2 st.totalTravelTimeMin
      confidenceIntervalLower := round2 (max 0 (st.totalTravelTimeMin -
        (49/25) * empStdDuration * (destinations.length : ℚ)))
      confidenceIntervalUpper := round2 (st.totalTravelTimeMin +
        (49/25) * empStdDuration * (destinations.length : ℚ))
      totalTravelTimeMinutes := round2 st.totalTravelTimeMin
      totalWorkTimeMinutes := 0
      totalDistanceKm := round2 st.totalDistanceKm
      numberOfStops := destinations.length
      numberOfLegs := st.legs.length
      legs := st.legs }
  else .impossibleRoute st.impossibleLegs destinations.length

/-- MultiDestinationPredictor.predict_multi_destination: reject fewer than 2
destinations, sort by sequence, run the leg loop, then finish. -/
def predictMultiDestination (gd : Coord → Coord → ℚ)
    (api : Coord → Coord → ApiOutcome) (destinations : List Destination)
    (employee : Coord) (method conditions : String) (empStdDuration : ℚ) :
    MultiResult :=
  if destinations.length < 2 then .invalidInput
  else finishMulti destinations empStdDuration
    (legLoop gd api method conditions 0 "Employee Start"
      (sortBySequence destinations) (initialLegState employee))

/-- Rounding to two decimals preserves nonnegativity. -/
theorem round2_nonneg {q : ℚ} (h : 0 ≤ q) : 0 ≤ round2 q := by
  unfold round2
  have h1 : (0 : ℤ) ≤ round (q * 100) := by
    rw [round_eq]
    exact Int.floor_nonneg.mpr (by linarith)
  have h2 : (0 : ℚ) ≤ (round (q * 100) : ℚ) := by exact_mod_cast h1
  exact div_nonneg h2 (by norm_num)

/-- Rounding to two decimals is monotone. -/
theorem round2_mono {a b : ℚ} (h : a ≤ b) : round2 a ≤ round2 b := by
  unfold round2
  have h1 : round (a * 100) ≤ round (b * 100) := by
    rw [round_eq, round_eq]
    exact Int.floor_le_floor (by linarith)
  have h2 : ((round (a * 100) : ℤ) : ℚ) ≤ ((round (b * 100) : ℤ) : ℚ) := by
    exact_mod_cast h1
  linarith

/-- Rounding to two decimals commutes with adding the integer 2. -/
theorem round2_add_two (q : ℚ) : round2 (q + 2) = round2 q + 2 := by
  unfold round2
  have h : (q + 2) * 100 = q * 100 + ((200 : ℤ) : ℚ) := by push_cast; ring
  rw [h, round_add_int]
  push_cast
  ring

/-- Rounding to two decimals moves a value by at most half a cent. -/
theorem abs_round2_sub (q : ℚ) : |round2 q - q| ≤ 1/200 := by
  have h := abs_sub_round (q * 100)
  rw [abs_sub_comm] at h
  have h2 : round2 q - q = (((round (q * 100) : ℤ) : ℚ) - q * 100) / 100 := by
    unfold round2; ring
  rw [h2, abs_div]
  have h3 : |(100 : ℚ)| = 100 := by norm_num
  rw [h3]
  linarith

/-- A reference point inside the region box (Manila area, rounded to whole
degrees so that kernel evaluation of comparisons stays exact). -/
def pManila : Coord := ⟨14, 121⟩

/-- A second point inside the region box, near pManila. -/
def pNearby : Coord := ⟨15, 121⟩

/-- A point far south-west of the region box (the spec scenario (1.0, 1.0)). -/
def pOutside : Coord := ⟨1, 1⟩

/-- A malformed coordinate: latitude 91 exceeds 90. -/
def pBadLat : Coord := ⟨91, 0⟩

/-- Geodesic abstraction returning 900 km, as between pManila and pOutside. -/
def gdFar : Coord → Coord → ℚ := fun _ _ => 900

/-- Geodesic abstraction returning 2 km, as between pManila and pNearby. -/
def gdNear : Coord → Coord → ℚ := fun _ _ => 2

/-- Membership in the reference-region box, from the four bounds. -/
theorem inPhilippines_true {c : Coord} (h1 : (9:ℚ)/2 ≤ c.lat) (h2 : c.lat ≤ 21)
    (h3 : (116:ℚ) ≤ c.lng) (h4 : c.lng ≤ 127) : inPhilippines c = true := by
  unfold inPhilippines
  rw [decide_eq_true h1, decide_eq_true h2, decide_eq_true h3, decide_eq_true h4]
  rfl

/-- A point south of the reference-region box is outside it. -/
theorem inPhilippines_false_of_lat_lt {c : Coord} (h : c.lat < (9:ℚ)/2) :
    inPhilippines c = false := by
  unfold inPhilippines
  rw [decide_eq_false (not_le.mpr h)]
  simp

/-- Coordinate validity from the four range bounds. -/
theorem validCoord_true {c : Coord} (h1 : (-90:ℚ) ≤ c.lat) (h2 : c.lat ≤ 90)
    (h3 : (-180:ℚ) ≤ c.lng) (h4 : c.lng ≤ 180) : validCoord c = true := by
  unfold validCoord
  rw [decide_eq_true h1, decide_eq_true h2, decide_eq_true h3, decide_eq_true h4]
  rfl

/-- With valid coordinates, a timed-out provider call degrades to the
fallback calculation. -/
theorem getRouteInfo_timeout (gd : Coord → Coord → ℚ) (origin dest : Coord)
    (mode : String) (hvo : validCoord origin = true)
    (hvd : validCoord dest = true) :
    getRouteInfo gd origin dest mode .timeout =
      fallbackCalculation gd origin dest mode := by
  unfold getRouteInfo
  rw [hvo, hvd]
  rfl

/-- With valid coordinates, a parsed response is handled by responseRoute. -/
theorem getRouteInfo_response (gd : Coord → Coord → ℚ) (origin dest : Coord)
    (mode status : String) (errorMessage : Option String)
    (leg : Option ProviderLeg) (hvo : validCoord origin = true)
    (hvd : validCoord dest = true) :
    getRouteInfo gd origin dest mode (.response status errorMessage leg) =
      responseRoute gd origin dest mode status errorMessage leg := by
  unfold getRouteInfo
  rw [hvo, hvd]
  rfl

/-- With an invalid origin or destination, every outcome degrades to the
fallback calculation (the provider is never consulted). -/
theorem getRouteInfo_invalid (gd : Coord → Coord → ℚ) (origin dest : Coord)
    (mode : String) (outcome : ApiOutcome)
    (h : validCoord origin = false ∨ validCoord dest = false) :
    getRouteInfo gd origin dest mode outcome =
      fallbackCalculation gd origin dest mode := by
  unfold getRouteInfo
  rcases h with h | h
  · rw [h]
    rfl
  · by_cases hvo : validCoord origin = true
    · rw [hvo, h]
      rfl
    · rw [Bool.not_eq_true] at hvo
      rw [hvo]
      rfl

/-- The fallback calculation is never the impossibility marker. -/
theorem fallbackCalculation_ne_impossible (gd : Coord → Coord → ℚ)
    (origin dest : Coord) (mode : String) (reason : ImpossibleReason) :
    fallbackCalculation gd origin dest mode ≠ .impossible reason := by
  unfold fallbackCalculation
  exact fun h => RouteResult.noConfusion h

/-- A ZERO_RESULTS status makes check 1 fire. -/
theorem isRouteImpossible_zeroResults (gd : Coord → Coord → ℚ)
    (origin dest : Coord) (errorMessage : Option String) :
    isRouteImpossible gd origin dest "ZERO_RESULTS" errorMessage =
      some .zeroResults := by
  unfold isRouteImpossible
  rw [if_pos rfl]

/-- An origin inside and a destination outside the region makes check 2
fire (for any non-ZERO_RESULTS status). -/
theorem isRouteImpossible_destOutside (gd : Coord → Coord → ℚ)
    (origin dest : Coord) (status : String) (errorMessage : Option String)
    (hs : status ≠ "ZERO_RESULTS") (ho : inPhilippines origin = true)
    (hd : inPhilippines dest = false) :
    isRouteImpossible gd origin dest status errorMessage =
      some .destOutsidePhilippines := by
  unfold isRouteImpossible
  rw [if_neg hs, ho, hd]
  rfl

/-- C1 counterexample: pManila to pOutside is classified impossible by the
geographic checks (destination outside the region), yet when the provider
call times out get_route_info returns the numeric fallback estimate
(1170 km, 2340 minutes), not the impossibility flag. -/
theorem c1_counterexample :
    (isRouteImpossible gdFar pManila pOutside "OK" none).isSome = true ∧
      getRouteInfo gdFar pManila pOutside "driving" .timeout =
        fallbackCalculation gdFar pManila pOutside "driving" ∧
      fallbackCalculation gdFar pManila pOutside "driving" =
        .fallback 1170 2340 := by
  have hvo : validCoord pManila = true :=
    validCoord_true (by norm_num [pManila]) (by norm_num [pManila])
      (by norm_num [pManila]) (by norm_num [pManila])
  have hvd : validCoord pOutside = true :=
    validCoord_true (by norm_num [pOutside]) (by norm_num [pOutside])
      (by norm_num [pOutside]) (by norm_num [pOutside])
  refine ⟨?_, getRouteInfo_timeout gdFar pManila pOutside "driving" hvo hvd, ?_⟩
  · rw [isRouteImpossible_destOutside gdFar pManila pOutside "OK" none (by simp)
      (inPhilippines_true (by norm_num [pManila]) (by norm_num [pManila])
        (by norm_num [pManila]) (by norm_num [pManila]))
      (inPhilippines_false_of_lat_lt (by norm_num [pOutside]))]
    rfl
  · unfold fallbackCalculation fallbackDuration speeds gdFar
    norm_num [round2, round_eq]

/-- C1 amended: when the coordinates are valid and the provider call returned
a parsed response, the impossibility checks run before any duration is
trusted: a pair the geographic checks classify impossible yields the
impossibility flag with its reason and no numeric distance or duration. -/
theorem c1_impossibility_before_duration (gd : Coord → Coord → ℚ)
    (origin dest : Coord) (mode status : String) (errorMessage : Option String)
    (leg : Option ProviderLeg) (reason : ImpossibleReason)
    (hvo : validCoord origin = true) (hvd : validCoord dest = true)
    (himp : isRouteImpossible gd origin dest status errorMessage = some reason) :
    getRouteInfo gd origin dest mode (.response status errorMessage leg) =
      .impossible reason := by
  rw [getRouteInfo_response gd origin dest mode status errorMessage leg hvo hvd]
  unfold responseRoute
  rw [himp]

/-- C1 amended witness: pManila to pOutside with a parsed OK response. -/
theorem c1_witness :
    (validCoord pManila = true ∧ validCoord pOutside = true ∧
      isRouteImpossible gdFar pManila pOutside "OK" none =
        some .destOutsidePhilippines) ∧
      getRouteInfo gdFar pManila pOutside "driving" (.response "OK" none none) =
        .impossible .destOutsidePhilippines := by
  have hvo : validCoord pManila = true :=
    validCoord_true (by norm_num [pManila]) (by norm_num [pManila])
      (by norm_num [pManila]) (by norm_num [pManila])
  have hvd : validCoord pOutside = true :=
    validCoord_true (by norm_num [pOutside]) (by norm_num [pOutside])
      (by norm_num [pOutside]) (by norm_num [pOutside])
  have himp : isRouteImpossible gdFar pManila pOutside "OK" none =
      some .destOutsidePhilippines :=
    isRouteImpossible_destOutside gdFar pManila pOutside "OK" none (by simp)
      (inPhilippines_true (by norm_num [pManila]) (by norm_num [pManila])
        (by norm_num [pManila]) (by norm_num [pManila]))
      (inPhilippines_false_of_lat_lt (by norm_num [pOutside]))
  exact ⟨⟨hvo, hvd, himp⟩,
    c1_impossibility_before_duration gdFar pManila pOutside "driving" "OK" none
      none .destOutsidePhilippines hvo hvd himp⟩

/-- A provider outcome that neither reports zero routes nor carries an
impossibility keyword in its error message. -/
def benignOutcome : ApiOutcome → Prop
  | .response status errorMessage _ =>
    status ≠ "ZERO_RESULTS" ∧ hasImpossibleKeyword errorMessage = false
  | _ => True

/-- Under 500 km and inside the region on both ends, no geographic check
fires: impossibility could only come from the provider's own report. -/
theorem isRouteImpossible_none (gd : Coord → Coord → ℚ) (origin dest : Coord)
    (status : String) (errorMessage : Option String)
    (ho : inPhilippines origin = true) (hd : inPhilippines dest = true)
    (h500 : gd origin dest ≤ 500) (hs : status ≠ "ZERO_RESULTS")
    (hk : hasImpossibleKeyword errorMessage = false) :
    isRouteImpossible gd origin dest status errorMessage = none := by
  unfold isRouteImpossible
  rw [if_neg hs, ho, hd]
  simp only [Bool.not_true, Bool.and_false, Bool.false_and, Bool.and_self]
  rw [if_neg (by simp), if_neg (by simp), if_neg (by simp),
    if_neg (not_lt.mpr h500), hk]
  rfl

/-- C2 counterexample: both endpoints inside the region and 2 km apart, but
the provider answers ZERO_RESULTS; route() reports impossibility anyway, so
the claim fails for this provider response. -/
theorem c2_counterexample :
    inPhilippines pManila = true ∧ inPhilippines pNearby = true ∧
      gdNear pManila pNearby ≤ 500 ∧
      getRouteInfo gdNear pManila pNearby "driving"
          (.response "ZERO_RESULTS" none none) =
        .impossible .zeroResults := by
  refine ⟨inPhilippines_true (by norm_num [pManila]) (by norm_num [pManila])
      (by norm_num [pManila]) (by norm_num [pManila]),
    inPhilippines_true (by norm_num [pNearby]) (by norm_num [pNearby])
      (by norm_num [pNearby]) (by norm_num [pNearby]),
    by norm_num [gdNear], ?_⟩
  rw [getRouteInfo_response gdNear pManila pNearby "driving" "ZERO_RESULTS"
    none none
    (validCoord_true (by norm_num [pManila]) (by norm_num [pManila])
      (by norm_num [pManila]) (by norm_num [pManila]))
    (validCoord_true (by norm_num [pNearby]) (by norm_num [pNearby])
      (by norm_num [pNearby]) (by norm_num [pNearby]))]
  unfold responseRoute
  rw [isRouteImpossible_zeroResults]

/-- C2 amended: for endpoints within 500 km and both inside the region,
route() never reports impossibility unless the provider response itself
reports zero routes or an impossibility keyword. -/
theorem c2_no_impossibility_within_region (gd : Coord → Coord → ℚ)
    (origin dest : Coord) (mode : String) (outcome : ApiOutcome)
    (ho : inPhilippines origin = true) (hd : inPhilippines dest = true)
    (h500 : gd origin dest ≤ 500) (hb : benignOutcome outcome)
    (reason : ImpossibleReason) :
    getRouteInfo gd origin dest mode outcome ≠ .impossible reason := by
  by_cases hvo : validCoord origin = true
  · by_cases hvd : validCoord dest = true
    · cases outcome with
      | timeout =>
        rw [getRouteInfo_timeout gd origin dest mode hvo hvd]
        exact fallbackCalculation_ne_impossible gd origin dest mode reason
      | requestError =>
        unfold getRouteInfo
        rw [hvo, hvd]
        exact fallbackCalculation_ne_impossible gd origin dest mode reason
      | otherError =>
        unfold getRouteInfo
        rw [hvo, hvd]
        exact fallbackCalculation_ne_impossible gd origin dest mode reason
      | response status errorMessage leg =>
        rw [getRouteInfo_response gd origin dest mode status errorMessage leg hvo hvd]
        obtain ⟨hs, hk⟩ := hb
        unfold responseRoute
        rw [isRouteImpossible_none gd origin dest status errorMessage ho hd h500 hs hk]
        by_cases hOK : status = "OK"
        · rw [if_pos hOK]
          cases leg with
          | some l => simp
          | none => exact fallbackCalculation_ne_impossible gd origin dest mode reason
        · rw [if_neg hOK]
          exact fallbackCalculation_ne_impossible gd origin dest mode reason
    · rw [getRouteInfo_invalid gd origin dest mode outcome
        (Or.inr (by rwa [Bool.not_eq_true] at hvd))]
      exact fallbackCalculation_ne_impossible gd origin dest mode reason
  · rw [getRouteInfo_invalid gd origin dest mode outcome
      (Or.inl (by rwa [Bool.not_eq_true] at hvo))]
    exact fallbackCalculation_ne_impossible gd origin dest mode reason

/-- C2 amended witness: pManila to pNearby with an OK response and no error
message. -/
theorem c2_witness :
    (inPhilippines pManila = true ∧ inPhilippines pNearby = true ∧
      gdNear pManila pNearby ≤ 500 ∧
      benignOutcome (.response "OK" none none)) ∧
      getRouteInfo gdNear pManila pNearby "driving" (.response "OK" none none) ≠
        .impossible .zeroResults := by
  have ho : inPhilippines pManila = true :=
    inPhilippines_true (by norm_num [pManila]) (by norm_num [pManila])
      (by norm_num [pManila]) (by norm_num [pManila])
  have hd : inPhilippines pNearby = true :=
    inPhilippines_true (by norm_num [pNearby]) (by norm_num [pNearby])
      (by norm_num [pNearby]) (by norm_num [pNearby])
  have h500 : gdNear pManila pNearby ≤ 500 := by norm_num [gdNear]
  have hb : benignOutcome (.response "OK" none none) := ⟨by simp, rfl⟩
  exact ⟨⟨ho, hd, h500, hb⟩,
    c2_no_impossibility_within_region gdNear pManila pNearby "driving"
      (.response "OK" none none) ho hd h500 hb .zeroResults⟩

/-- C3: for a single-destination prediction whose routed distance is under
0.3 km (success or fallback route, nonnegative travel time), the reported
duration is the reported travel time plus 2 minutes and the travel-based flag
is set, for every model output. -/
theorem c3_short_distance_override (route : RouteResult) (d t m std : ℚ)
    (b : Bool) (hroute : route = .success d t b ∨ route = .fallback d t)
    (hd : d < 3/10) (ht : 0 ≤ t) :
    ∃ out, predictCore route m std = .ok out ∧
      out.predictedDurationMinutes = out.travelTimeMinutes + 2 ∧
      out.usedTravelBasedPrediction = true := by
  have htrust : shouldTrustTravelTime d t m = true := by
    unfold shouldTrustTravelTime
    rw [if_pos hd]
  have hfd : finalDuration d t m = t + 2 := by
    unfold finalDuration
    rw [htrust, if_pos rfl, if_pos hd, max_eq_right (by linarith)]
  have hmain : predictFrom d t m std = .ok
      { predictedDurationMinutes := round2 (max 0 (finalDuration d t m))
        confidenceIntervalLower := round2 (max 0 (finalDuration d t m - (49/25) * std))
        confidenceIntervalUpper := round2 (max 0 (finalDuration d t m + (49/25) * std))
        travelTimeMinutes := round2 t
        workTimeMinutes := round2 (max 0 (finalDuration d t m - t))
        usedTravelBasedPrediction := shouldTrustTravelTime d t m } := rfl
  have hcore : predictCore route m std = predictFrom d t m std := by
    rcases hroute with rfl | rfl <;> rfl
  refine ⟨_, hcore.trans hmain, ?_, htrust⟩
  simp only [hfd]
  rw [max_eq_right (by linarith : (0:ℚ) ≤ t + 2), round2_add_two]

/-- C3 witness: a concrete fallback route 0.1 km away with 5 minutes of
travel. -/
theorem c3_witness :
    ((1:ℚ)/10 < 3/10 ∧ (0:ℚ) ≤ 5) ∧
      ∃ out, predictCore (.fallback (1/10) 5) 7 3 = .ok out ∧
        out.predictedDurationMinutes = out.travelTimeMinutes + 2 ∧
        out.usedTravelBasedPrediction = true :=
  ⟨⟨by norm_num, by norm_num⟩,
    c3_short_distance_override (.fallback (1/10) 5) (1/10) 5 7 3 false
      (Or.inr rfl) (by norm_num) (by norm_num)⟩

/-- C4 counterexample: distance 0.2 km, travel time 2 minutes, model estimate
11 minutes.  The premise of C4 holds (travel time above 1 minute, model
estimate above five times the travel time), yet the engine reports 4 minutes
(travel time plus 2, by the short-distance override), not the travel time 2. -/
theorem c4_counterexample :
    (1:ℚ) < 2 ∧ (11:ℚ) > 5 * 2 ∧
      predictCore (.fallback (1/5) 2) 11 0 =
        .ok { predictedDurationMinutes := 4, confidenceIntervalLower := 4,
              confidenceIntervalUpper := 4, travelTimeMinutes := 2,
              workTimeMinutes := 2, usedTravelBasedPrediction := true } ∧
      (4:ℚ) ≠ 2 := by
  refine ⟨by norm_num, by norm_num, ?_, by norm_num⟩
  have htrust : shouldTrustTravelTime (1/5) 2 11 = true := by
    unfold shouldTrustTravelTime
    rw [if_pos (by norm_num : (1:ℚ)/5 < 3/10)]
  have hfd : finalDuration (1/5) 2 11 = 4 := by
    unfold finalDuration
    rw [htrust, if_pos rfl, if_pos (by norm_num : (1:ℚ)/5 < 3/10)]
    norm_num
  show predictFrom (1/5) 2 11 0 = _
  unfold predictFrom
  rw [hfd, htrust]
  norm_num [round2, round_eq]

/-- C4 amended: when additionally the routed distance is at least 0.3 km, a
model estimate above five times a travel time above 1 minute makes the engine
report the travel time itself, for every model output and route kind. -/
theorem c4_hallucination_guard (route : RouteResult) (d t m std : ℚ) (b : Bool)
    (hroute : route = .success d t b ∨ route = .fallback d t)
    (hd : 3/10 ≤ d) (ht : 1 < t) (hm : m > 5 * t) :
    ∃ out, predictCore route m std = .ok out ∧
      out.predictedDurationMinutes = out.travelTimeMinutes ∧
      out.usedTravelBasedPrediction = true := by
  have htrust : shouldTrustTravelTime d t m = true := by
    unfold shouldTrustTravelTime
    rw [if_neg (not_lt.mpr hd)]
    by_cases h100 : d > 100
    · rw [if_pos h100]
    · rw [if_neg h100, if_pos]
      simp only [Bool.and_eq_true, decide_eq_true_eq]
      exact ⟨ht, by linarith⟩
  have hfd : finalDuration d t m = t := by
    unfold finalDuration
    rw [htrust, if_pos rfl, if_neg (not_lt.mpr hd), max_eq_right (by linarith)]
  have hcore : predictCore route m std = predictFrom d t m std := by
    rcases hroute with rfl | rfl <;> rfl
  refine ⟨_, hcore.trans rfl, ?_, htrust⟩
  simp only [predictFrom, hfd, htrust]
  rw [max_eq_right (by linarith : (0:ℚ) ≤ t)]

/-- C4 amended witness: distance 1 km, travel 2 minutes, model estimate 11. -/
theorem c4_witness :
    ((3:ℚ)/10 ≤ 1 ∧ (1:ℚ) < 2 ∧ (11:ℚ) > 5 * 2) ∧
      ∃ out, predictCore (.fallback 1 2) 11 3 = .ok out ∧
        out.predictedDurationMinutes = out.travelTimeMinutes ∧
        out.usedTravelBasedPrediction = true :=
  ⟨⟨by norm_num, by norm_num, by norm_num⟩,
    c4_hallucination_guard (.fallback 1 2) 1 2 11 3 false (Or.inr rfl)
      (by norm_num) (by norm_num) (by norm_num)⟩

/-- Every mode speed in the fallback table is positive. -/
theorem speeds_pos (mode : String) : 0 < speeds mode := by
  unfold speeds
  split_ifs <;> norm_num

/-- The fallback duration is monotone in the straight-line distance. -/
theorem fallbackDuration_mono (mode : String) {d1 d2 : ℚ} (h : d1 ≤ d2) :
    fallbackDuration d1 mode ≤ fallbackDuration d2 mode := by
  unfold fallbackDuration
  apply round2_mono
  have hs := speeds_pos mode
  gcongr

/-- The speed table exactly as the spec words it: Drive 30 km/h, Walk 5,
Bike 15, Transit 20, keyed by the engine's method name. -/
def specSpeedTable (method : String) : ℚ :=
  if method = "Drive" then 30
  else if method = "Walk" then 5
  else if method = "Bike" then 15
  else if method = "Public Transport" then 20
  else 20

/-- The latitude range accepted by the geopy Point constructor: since geopy
2.0 the geodesic call raises ValueError when a latitude lies outside plus or
minus 90, while an out-of-range longitude is normalized instead of rejected. -/
def geopyLatValid (c : Coord) : Bool := -90 ≤ c.lat && c.lat ≤ 90

/-- An out-of-range latitude makes the whole coordinate invalid. -/
theorem validCoord_false_of_geopyLat {c : Coord}
    (h : geopyLatValid c = false) : validCoord c = false := by
  unfold geopyLatValid at h
  unfold validCoord
  rw [h]
  rfl

/-- The visible effect of one get_route_info call: either a returned
dictionary or an exception escaping the function. -/
inductive CallResult where
  | raised
  | returned (r : RouteResult)
deriving DecidableEq, Repr

/-- get_route_info with the error path of its coordinate-validation branch
made explicit.  When a coordinate fails validation, the source calls
_fallback_calculation outside any try block; that function starts with a
geodesic call, which raises for an out-of-range latitude (geopy 2), so the
exception escapes get_route_info; with both latitudes in range (e.g. only a
longitude is malformed) the numeric fallback dictionary is returned.  With
both coordinates valid the behavior is getRouteInfo, all of whose internal
fallback calls see valid coordinates, where the geodesic is total. -/
def getRouteInfoPy (gd : Coord → Coord → ℚ) (origin dest : Coord)
    (mode : String) (outcome : ApiOutcome) : CallResult :=
  if !validCoord origin || !validCoord dest then
    if geopyLatValid origin && geopyLatValid dest then
      .returned (fallbackCalculation gd origin dest mode)
    else .raised
  else .returned (getRouteInfo gd origin dest mode outcome)

/-- A malformed coordinate whose latitude is still in range: longitude 181
exceeds 180. -/
def pBadLng : Coord := ⟨14, 181⟩

/-- C5 counterexample: a request with longitude 181 is malformed, yet it is
not rejected as invalid input: the engine skips the provider and returns the
numeric fallback estimate (here 1170 km and 2340 minutes). -/
theorem c5_counterexample :
    validCoord pBadLng = false ∧
      getRouteInfoPy gdFar pBadLng pManila "driving" (.response "OK" none none) =
        .returned (fallbackCalculation gdFar pBadLng pManila "driving") ∧
      fallbackCalculation gdFar pBadLng pManila "driving" =
        .fallback 1170 2340 := by
  refine ⟨by decide, rfl, ?_⟩
  unfold fallbackCalculation fallbackDuration speeds gdFar
  norm_num [round2, round_eq]

/-- C5 amended: malformed coordinates are detected before any provider call,
but the request is not rejected as invalid input: with both latitudes in
range (e.g. an out-of-range longitude) the numeric fallback estimate is
returned, and with a latitude out of range the distance library's error
escapes uncaught; in both cases the result is independent of the provider
outcome, so the provider is never contacted.  A multi-stop request with
fewer than 2 destinations is rejected with an error before any leg is
routed (independently of the provider oracle). -/
theorem c5_invalid_input_handling :
    (∀ (gd : Coord → Coord → ℚ) (origin dest : Coord) (mode : String)
        (outcome : ApiOutcome),
      validCoord origin = false ∨ validCoord dest = false →
      geopyLatValid origin = true → geopyLatValid dest = true →
      getRouteInfoPy gd origin dest mode outcome =
        .returned (fallbackCalculation gd origin dest mode)) ∧
    (∀ (gd : Coord → Coord → ℚ) (origin dest : Coord) (mode : String)
        (outcome : ApiOutcome),
      geopyLatValid origin = false ∨ geopyLatValid dest = false →
      getRouteInfoPy gd origin dest mode outcome = .raised) ∧
    (∀ (gd : Coord → Coord → ℚ) (api : Coord → Coord → ApiOutcome)
        (destinations : List Destination) (employee : Coord)
        (method conditions : String) (empStdDuration : ℚ),
      destinations.length < 2 →
      predictMultiDestination gd api destinations employee method conditions
        empStdDuration = .invalidInput) := by
  refine ⟨?_, ?_, ?_⟩
  · intro gd origin dest mode outcome h hlo hld
    unfold getRouteInfoPy
    have hcond : (!validCoord origin || !validCoord dest) = true := by
      rcases h with h' | h' <;> simp [h']
    rw [if_pos hcond, if_pos (by simp [hlo, hld])]
  · intro gd origin dest mode outcome h
    have hval : validCoord origin = false ∨ validCoord dest = false :=
      h.imp validCoord_false_of_geopyLat validCoord_false_of_geopyLat
    unfold getRouteInfoPy
    have hcond : (!validCoord origin || !validCoord dest) = true := by
      rcases hval with h' | h' <;> simp [h']
    have hcond2 : ¬((geopyLatValid origin && geopyLatValid dest) = true) := by
      rcases h with h' | h' <;> simp [h']
    rw [if_pos hcond, if_neg hcond2]
  · intro gd api dests emp method conds std h
    unfold predictMultiDestination
    rw [if_pos h]

/-- C5 amended witness: the malformed-longitude point with a timed-out call
(numeric fallback returned), the latitude-91 point (exception escapes), and
an empty destination list (rejected). -/
theorem c5_witness :
    ((validCoord pBadLng = false ∧ geopyLatValid pBadLng = true ∧
        geopyLatValid pManila = true) ∧
      geopyLatValid pBadLat = false ∧
      ([] : List Destination).length < 2) ∧
      getRouteInfoPy gdFar pBadLng pManila "driving" .timeout =
        .returned (fallbackCalculation gdFar pBadLng pManila "driving") ∧
      getRouteInfoPy gdFar pBadLat pManila "driving" .timeout = .raised ∧
      predictMultiDestination gdFar (fun _ _ => .timeout) [] pManila "Drive"
        "Normal" 0 = .invalidInput := by
  have h1 : validCoord pBadLng = false := by decide
  have h2 : geopyLatValid pBadLng = true := by decide
  have h3 : geopyLatValid pManila = true := by decide
  have h4 : geopyLatValid pBadLat = false := by decide
  exact ⟨⟨⟨h1, h2, h3⟩, h4, by norm_num⟩,
    c5_invalid_input_handling.1 gdFar pBadLng pManila "driving" .timeout
      (Or.inl h1) h2 h3,
    c5_invalid_input_handling.2.1 gdFar pBadLat pManila "driving" .timeout
      (Or.inl h4),
    c5_invalid_input_handling.2.2 gdFar (fun _ _ => .timeout) [] pManila "Drive"
      "Normal" 0 (by norm_num)⟩

/-- C6: for every coordinate pair and each of the four transport methods, the
fallback result carries the rounded road distance and the rounded duration
(distance times 1.3 over the spec's speed table, times 60), the duration is
within rounding tolerance (half a hundredth) of the exact formula, and it is
monotone in the straight-line distance. -/
theorem c6_fallback_duration (gd : Coord → Coord → ℚ) (origin dest : Coord)
    (method : String)
    (hm : method ∈ ["Drive", "Walk", "Bike", "Public Transport"]) :
    fallbackCalculation gd origin dest (modeMapping method) =
      .fallback (round2 (gd origin dest * (13/10)))
        (fallbackDuration (gd origin dest) (modeMapping method)) ∧
    |fallbackDuration (gd origin dest) (modeMapping method) -
        gd origin dest * (13/10) / specSpeedTable method * 60| ≤ 1/200 ∧
    ∀ d1 d2 : ℚ, d1 ≤ d2 →
      fallbackDuration d1 (modeMapping method) ≤
        fallbackDuration d2 (modeMapping method) := by
  simp only [List.mem_cons, List.not_mem_nil, or_false] at hm
  rcases hm with rfl | rfl | rfl | rfl <;>
    exact ⟨rfl, abs_round2_sub _, fun d1 d2 h12 => fallbackDuration_mono _ h12⟩

/-- C6 witness: the Drive method between pManila and pNearby. -/
theorem c6_witness :
    ("Drive" ∈ ["Drive", "Walk", "Bike", "Public Transport"]) ∧
      (fallbackCalculation gdNear pManila pNearby (modeMapping "Drive") =
        .fallback (round2 (gdNear pManila pNearby * (13/10)))
          (fallbackDuration (gdNear pManila pNearby) (modeMapping "Drive")) ∧
      |fallbackDuration (gdNear pManila pNearby) (modeMapping "Drive") -
          gdNear pManila pNearby * (13/10) / specSpeedTable "Drive" * 60| ≤ 1/200 ∧
      ∀ d1 d2 : ℚ, d1 ≤ d2 →
        fallbackDuration d1 (modeMapping "Drive") ≤
          fallbackDuration d2 (modeMapping "Drive")) :=
  ⟨by simp, c6_fallback_duration gdNear pManila pNearby "Drive" (by simp)⟩

/-- C8: every confidence interval the engine returns has a nonnegative lower
bound equal to the estimate minus 1.96 times the employee's historical
standard deviation (times the stop count for multi-destination requests),
floored at zero.  The first conjunct covers every non-impossible
single-destination prediction (predictCore routes them all through
predictFrom); the second covers every multi-destination prediction. -/
theorem c8_confidence_lower_floor :
    (∀ d t m std : ℚ,
      match predictFrom d t m std with
      | .ok out =>
        out.confidenceIntervalLower =
          round2 (max 0 (finalDuration d t m - (49/25) * std)) ∧
        0 ≤ out.confidenceIntervalLower
      | .impossibleRoute _ => True) ∧
    (∀ (gd : Coord → Coord → ℚ) (api : Coord → Coord → ApiOutcome)
        (destinations : List Destination) (employee : Coord)
        (method conditions : String) (empStdDuration : ℚ),
      match predictMultiDestination gd api destinations employee method
          conditions empStdDuration with
      | .ok out =>
        out.confidenceIntervalLower =
          round2 (max 0 ((legLoop gd api method conditions 0 "Employee Start"
              (sortBySequence destinations)
              (initialLegState employee)).totalTravelTimeMin -
            (49/25) * empStdDuration * (destinations.length : ℚ))) ∧
        0 ≤ out.confidenceIntervalLower
      | _ => True) := by
  constructor
  · intro d t m std
    exact ⟨rfl, round2_nonneg (le_max_left 0 _)⟩
  · intro gd api dests emp method conds std
    rcases hM : predictMultiDestination gd api dests emp method conds std
      with _ | _ | out
    · trivial
    · trivial
    · unfold predictMultiDestination at hM
      split at hM
      · exact absurd hM (by simp)
      · unfold finishMulti at hM
        split at hM
        · injection hM with h
          subst h
          exact ⟨rfl, round2_nonneg (le_max_left 0 _)⟩
        · exact absurd hM (by simp)

/-- C9: an impossible leg does not advance the simulated position, clock,
accumulated legs or totals; it only appends an impossible-leg record whose
from_location is the label handed down by the loop.  The loop hands the
current destination's name to the next leg as its from_location whether or
not the current leg was possible, so the leg after an impossible destination
is routed from the last reachable position while its from_location names the
skipped stop. -/
theorem c9_impossible_leg_state :
    (∀ (gd : Coord → Coord → ℚ) (api : Coord → Coord → ApiOutcome)
        (method conditions : String) (i : ℕ) (fromName : String)
        (dest : Destination) (st : LegState) (reason : ImpossibleReason),
      getRouteWithConditions gd st.currentPos (destCoord dest) method conditions
          (api st.currentPos (destCoord dest)) = .impossible reason →
      legStep gd api method conditions i fromName dest st =
        { st with impossibleLegs := st.impossibleLegs ++
            [{ legNumber := i + 1, fromLocation := fromName,
               toLocation := dest.locationName, reason := reason }] }) ∧
    (∀ (gd : Coord → Coord → ℚ) (api : Coord → Coord → ApiOutcome)
        (method conditions : String) (i : ℕ) (fromName : String)
        (d : Destination) (rest : List Destination) (st : LegState),
      legLoop gd api method conditions i fromName (d :: rest) st =
        legLoop gd api method conditions (i + 1) d.locationName rest
          (legStep gd api method conditions i fromName d st)) := by
  constructor
  · intro gd api method conds i fromName dest st reason h
    unfold legStep
    rw [h]
  · intro gd api method conds i fromName d rest st
    rfl

/-- A provider oracle that always reports zero routes. -/
def apiZeroResults : Coord → Coord → ApiOutcome :=
  fun _ _ => .response "ZERO_RESULTS" none none

/-- A provider oracle that always returns an OK response with one 5000 m,
601 s leg and no live-traffic data. -/
def apiOkLeg : Coord → Coord → ApiOutcome :=
  fun _ _ => .response "OK" none (some ⟨5000, 601, none⟩)

/-- First stop of the concrete scenarios: sequence 1, at (15, 121). -/
def dStopA : Destination := ⟨1, "A", 15, 121⟩

/-- Second stop of the concrete scenarios: sequence 2, at (16, 121). -/
def dStopB : Destination := ⟨2, "B", 16, 121⟩

/-- Any route request answered with ZERO_RESULTS comes back impossible
(provided the coordinates are valid). -/
theorem zeroResultsRoute (gd : Coord → Coord → ℚ) (o d : Coord)
    (method conditions : String) (hvo : validCoord o = true)
    (hvd : validCoord d = true) :
    getRouteWithConditions gd o d method conditions
      (.response "ZERO_RESULTS" none none) = .impossible .zeroResults := by
  unfold getRouteWithConditions
  rw [getRouteInfo_response gd o d (modeMapping method) "ZERO_RESULTS" none none
    hvo hvd]
  unfold responseRoute
  rw [isRouteImpossible_zeroResults]

/-- C9 witness: with the always-ZERO_RESULTS oracle, the first leg from
pManila to stop A leaves the loop state unchanged except for the recorded
impossible leg, and the loop then hands "A" down as the next from_location. -/
theorem c9_witness :
    (getRouteWithConditions gdNear (initialLegState pManila).currentPos
        (destCoord dStopA) "Drive" "Normal"
        (apiZeroResults (initialLegState pManila).currentPos (destCoord dStopA)) =
      .impossible .zeroResults) ∧
      legStep gdNear apiZeroResults "Drive" "Normal" 0 "Employee Start" dStopA
          (initialLegState pManila) =
        { initialLegState pManila with impossibleLegs :=
            (initialLegState pManila).impossibleLegs ++
              [{ legNumber := 1, fromLocation := "Employee Start",
                 toLocation := dStopA.locationName,
                 reason := .zeroResults }] } ∧
      legLoop gdNear apiZeroResults "Drive" "Normal" 0 "Employee Start"
          (dStopA :: [dStopB]) (initialLegState pManila) =
        legLoop gdNear apiZeroResults "Drive" "Normal" 1 dStopA.locationName
          [dStopB]
          (legStep gdNear apiZeroResults "Drive" "Normal" 0 "Employee Start"
            dStopA (initialLegState pManila)) := by
  have hroute : getRouteWithConditions gdNear (initialLegState pManila).currentPos
      (destCoord dStopA) "Drive" "Normal"
      (apiZeroResults (initialLegState pManila).currentPos (destCoord dStopA)) =
      .impossible .zeroResults :=
    zeroResultsRoute gdNear _ _ "Drive" "Normal"
      (validCoord_true (by norm_num [initialLegState, pManila])
        (by norm_num [initialLegState, pManila])
        (by norm_num [initialLegState, pManila])
        (by norm_num [initialLegState, pManila]))
      (validCoord_true (by norm_num [destCoord, dStopA])
        (by norm_num [destCoord, dStopA]) (by norm_num [destCoord, dStopA])
        (by norm_num [destCoord, dStopA]))
  exact ⟨hroute,
    c9_impossible_leg_state.1 gdNear apiZeroResults "Drive" "Normal" 0
      "Employee Start" dStopA (initialLegState pManila) .zeroResults hroute,
    c9_impossible_leg_state.2 gdNear apiZeroResults "Drive" "Normal" 0
      "Employee Start" dStopA [dStopB] (initialLegState pManila)⟩

/-- With the 5000 m / 601 s provider leg and Rush Hour conditions, every
in-region pair routes to a 5 km success of 18.036 minutes (10.02 rounded
provider minutes times the 1.8 Rush Hour multiplier) without traffic data. -/
theorem rushHourOkRoute (o d : Coord) (ho : inPhilippines o = true)
    (hd : inPhilippines d = true) (hvo : validCoord o = true)
    (hvd : validCoord d = true) :
    getRouteWithConditions gdNear o d "Drive" "Rush Hour"
      (.response "OK" none (some ⟨5000, 601, none⟩)) =
      .success 5 (4509/250) false := by
  have hinfo : getRouteInfo gdNear o d (modeMapping "Drive")
      (.response "OK" none (some ⟨5000, 601, none⟩)) =
      .success 5 (501/50) false := by
    rw [getRouteInfo_response gdNear o d (modeMapping "Drive") "OK" none
      (some ⟨5000, 601, none⟩) hvo hvd]
    unfold responseRoute
    rw [isRouteImpossible_none gdNear o d "OK" none ho hd (by norm_num [gdNear])
      (by simp) rfl]
    rw [if_pos rfl]
    simp only [Option.getD_none, Option.isSome_none]
    norm_num [round2, round_eq]
  unfold getRouteWithConditions
  rw [hinfo]
  simp only [conditionFactor, String.reduceEq, if_false, Bool.false_eq_true,
    if_true, reduceIte]
  norm_num

/-- rushHourOkRoute restated through the apiOkLeg oracle. -/
theorem rushHourOkRouteApi (o d : Coord) (ho : inPhilippines o = true)
    (hd : inPhilippines d = true) (hvo : validCoord o = true)
    (hvd : validCoord d = true) :
    getRouteWithConditions gdNear o d "Drive" "Rush Hour" (apiOkLeg o d) =
      .success 5 (4509/250) false :=
  rushHourOkRoute o d ho hd hvo hvd

/-- The first leg of the Rush Hour scenario as reported: 18.036 raw minutes,
18.04 rounded. -/
def legOne : LegOut :=
  ⟨1, "Employee Start", "A", 5, 451/25, 4509/250, 0, 4509/250, false⟩

/-- The second leg of the Rush Hour scenario. -/
def legTwo : LegOut :=
  ⟨2, "A", "B", 5, 451/25, 4509/250, 4509/250, 4509/125, false⟩

/-- The loop state after both Rush Hour legs. -/
def stRushHour : LegState := ⟨[legOne, legTwo], 10, 4509/125, [], ⟨16, 121⟩, 4509/125⟩

/-- The reported Rush Hour prediction: total 36.072 raw minutes, reported as
36.07, while each reported leg says 18.04. -/
def outRushHour : MultiOutput :=
  ⟨3607/100, 3607/100, 3607/100, 3607/100, 0, 10, 2, 2, [legOne, legTwo]⟩

/-- The full two-stop Rush Hour run evaluates to outRushHour. -/
theorem rushHourTwoLegRun :
    predictMultiDestination gdNear apiOkLeg [dStopA, dStopB] pManila "Drive"
      "Rush Hour" 0 = .ok outRushHour := by
  have hPM : inPhilippines pManila = true :=
    inPhilippines_true (by norm_num [pManila]) (by norm_num [pManila])
      (by norm_num [pManila]) (by norm_num [pManila])
  have hvPM : validCoord pManila = true :=
    validCoord_true (by norm_num [pManila]) (by norm_num [pManila])
      (by norm_num [pManila]) (by norm_num [pManila])
  have hA : inPhilippines (destCoord dStopA) = true :=
    inPhilippines_true (by norm_num [destCoord, dStopA])
      (by norm_num [destCoord, dStopA]) (by norm_num [destCoord, dStopA])
      (by norm_num [destCoord, dStopA])
  have hvA : validCoord (destCoord dStopA) = true :=
    validCoord_true (by norm_num [destCoord, dStopA])
      (by norm_num [destCoord, dStopA]) (by norm_num [destCoord, dStopA])
      (by norm_num [destCoord, dStopA])
  have hB : inPhilippines (destCoord dStopB) = true :=
    inPhilippines_true (by norm_num [destCoord, dStopB])
      (by norm_num [destCoord, dStopB]) (by norm_num [destCoord, dStopB])
      (by norm_num [destCoord, dStopB])
  have hvB : validCoord (destCoord dStopB) = true :=
    validCoord_true (by norm_num [destCoord, dStopB])
      (by norm_num [destCoord, dStopB]) (by norm_num [destCoord, dStopB])
      (by norm_num [destCoord, dStopB])
  have hA15 : inPhilippines ⟨15, 121⟩ = true := hA
  have hvA15 : validCoord ⟨15, 121⟩ = true := hvA
  have hs1 : legStep gdNear apiOkLeg "Drive" "Rush Hour" 0 "Employee Start"
      dStopA (initialLegState pManila) =
      ⟨[legOne], 5, 4509/250, [], ⟨15, 121⟩, 4509/250⟩ := by
    unfold legStep
    dsimp only [initialLegState]
    rw [rushHourOkRouteApi pManila (destCoord dStopA) hPM hA hvPM hvA]
    simp only [legAdvance, destCoord, dStopA, legOne]
    norm_num [round2, round_eq]
  have hs2 : legStep gdNear apiOkLeg "Drive" "Rush Hour" 1 dStopA.locationName
      dStopB (⟨[legOne], 5, 4509/250, [], ⟨15, 121⟩, 4509/250⟩ : LegState) =
      stRushHour := by
    unfold legStep
    dsimp only
    rw [rushHourOkRouteApi ⟨15, 121⟩ (destCoord dStopB) hA15 hB hvA15 hvB]
    simp only [legAdvance, destCoord, dStopA, dStopB, stRushHour, legOne, legTwo]
    norm_num [round2, round_eq]
  have hsort : sortBySequence [dStopA, dStopB] = [dStopA, dStopB] := by
    apply List.mergeSort_of_sorted
    simp [seqLE, dStopA, dStopB]
  have hloop : legLoop gdNear apiOkLeg "Drive" "Rush Hour" 0 "Employee Start"
      [dStopA, dStopB] (initialLegState pManila) = stRushHour := by
    simp only [legLoop]
    rw [hs1, hs2]
  unfold predictMultiDestination
  rw [if_neg (by simp), hsort, hloop]
  unfold finishMulti
  rw [if_pos (by simp [stRushHour])]
  simp only [stRushHour, outRushHour, legOne, legTwo]
  norm_num [round2, round_eq]

/-- Reported total duration of a successful multi-destination result. -/
def reportedTotal : MultiResult → ℚ
  | .ok out => out.predictedDurationMinutes
  | _ => 0

/-- Sum of the reported per-leg travel times of a successful result. -/
def reportedLegSum : MultiResult → ℚ
  | .ok out => (out.legs.map LegOut.travelTimeMinutes).sum
  | _ => 0

/-- Whether a multi-destination result is a successful prediction. -/
def isOkMulti : MultiResult → Bool
  | .ok _ => true
  | _ => false

/-- C7 counterexample: a successful two-stop Rush Hour run whose reported
total (36.07) differs from the sum of its reported legs (18.04 + 18.04 =
36.08), because legs are rounded individually while the total is rounded
once. -/
theorem c7_counterexample :
    isOkMulti (predictMultiDestination gdNear apiOkLeg [dStopA, dStopB]
      pManila "Drive" "Rush Hour" 0) = true ∧
    reportedTotal (predictMultiDestination gdNear apiOkLeg [dStopA, dStopB]
      pManila "Drive" "Rush Hour" 0) = 3607/100 ∧
    reportedLegSum (predictMultiDestination gdNear apiOkLeg [dStopA, dStopB]
      pManila "Drive" "Rush Hour" 0) = 3608/100 ∧
    (3607/100 : ℚ) ≠ 3608/100 := by
  rw [rushHourTwoLegRun]
  refine ⟨rfl, rfl, ?_, by norm_num⟩
  simp only [reportedLegSum, outRushHour, legOne, legTwo, List.map_cons,
    List.map_nil, List.sum_cons, List.sum_nil]
  norm_num

/-- The accumulated travel time always equals the sum of the unrounded
travel times of the accumulated legs. -/
theorem legLoop_total_eq_raw_sum (gd : Coord → Coord → ℚ)
    (api : Coord → Coord → ApiOutcome) (method conditions : String) :
    ∀ (l : List Destination) (i : ℕ) (fromName : String) (st : LegState),
      st.totalTravelTimeMin = (st.legs.map LegOut.rawTravelTime).sum →
      (legLoop gd api method conditions i fromName l st).totalTravelTimeMin =
        ((legLoop gd api method conditions i fromName l st).legs.map
          LegOut.rawTravelTime).sum := by
  intro l
  induction l with
  | nil => intro i fromName st h; exact h
  | cons d rest ih =>
    intro i fromName st h
    show (legLoop gd api method conditions (i+1) d.locationName rest
        (legStep gd api method conditions i fromName d st)).totalTravelTimeMin = _
    apply ih
    unfold legStep
    cases hr : getRouteWithConditions gd st.currentPos (destCoord d) method
        conditions (api st.currentPos (destCoord d)) with
    | impossible reason => simpa using h
    | success dk t ht =>
      simp only [legAdvance, List.map_append, List.sum_append, List.map_cons,
        List.map_nil, List.sum_cons, List.sum_nil]
      rw [h]
      ring
    | fallback dk t =>
      simp only [legAdvance, List.map_append, List.sum_append, List.map_cons,
        List.map_nil, List.sum_cons, List.sum_nil]
      rw [h]
      ring

/-- C7 amended: for every successful multi-destination prediction, the
reported total duration is the exact sum of the legs' unrounded travel times,
rounded once; the reported total travel time equals it and no work time is
added.  (The individually rounded per-leg fields can disagree with the
reported total by rounding, as the counterexample shows.) -/
theorem c7_total_is_sum_of_legs (gd : Coord → Coord → ℚ)
    (api : Coord → Coord → ApiOutcome) (destinations : List Destination)
    (employee : Coord) (method conditions : String) (empStdDuration : ℚ)
    (out : MultiOutput)
    (hM : predictMultiDestination gd api destinations employee method
      conditions empStdDuration = .ok out) :
    out.predictedDurationMinutes =
      round2 ((out.legs.map LegOut.rawTravelTime).sum) ∧
    out.totalTravelTimeMinutes = out.predictedDurationMinutes ∧
    out.totalWorkTimeMinutes = 0 := by
  unfold predictMultiDestination at hM
  split at hM
  · exact absurd hM (by simp)
  · unfold finishMulti at hM
    split at hM
    · injection hM with h
      subst h
      refine ⟨?_, rfl, rfl⟩
      have hinv := legLoop_total_eq_raw_sum gd api method conditions
        (sortBySequence destinations) 0 "Employee Start"
        (initialLegState employee) (by simp [initialLegState])
      simp only [hinv]
    · exact absurd hM (by simp)

/-- C7 amended witness: the two-stop Rush Hour run. -/
theorem c7_witness :
    (predictMultiDestination gdNear apiOkLeg [dStopA, dStopB] pManila "Drive"
      "Rush Hour" 0 = .ok outRushHour) ∧
    (outRushHour.predictedDurationMinutes =
      round2 ((outRushHour.legs.map LegOut.rawTravelTime).sum) ∧
    outRushHour.totalTravelTimeMinutes = outRushHour.predictedDurationMinutes ∧
    outRushHour.totalWorkTimeMinutes = 0) :=
  ⟨rushHourTwoLegRun,
    c7_total_is_sum_of_legs gdNear apiOkLeg [dStopA, dStopB] pManila "Drive"
      "Rush Hour" 0 outRushHour rushHourTwoLegRun⟩

/-- Two sorted lists that are permutations of each other and have pairwise
distinct sequence numbers are equal. -/
theorem sorted_perm_nodup_eq :
    ∀ (l1 l2 : List Destination), l1.Perm l2 →
      l1.Pairwise (fun a b => a.sequence ≤ b.sequence) →
      l2.Pairwise (fun a b => a.sequence ≤ b.sequence) →
      (l1.map Destination.sequence).Nodup → l1 = l2
  | [], l2, hp, _, _, _ => List.Perm.nil_eq hp
  | a :: t1, [], hp, _, _, _ => by
    exact absurd hp (by simp)
  | a :: t1, b :: t2, hp, hs1, hs2, hnd => by
    have hbmem : b ∈ a :: t1 := hp.mem_iff.mpr (List.mem_cons_self b t2)
    have hamem : a ∈ b :: t2 := hp.mem_iff.mp (List.mem_cons_self a t1)
    have hab : a = b := by
      rcases List.mem_cons.mp hbmem with h1 | h1
      · exact h1.symm
      rcases List.mem_cons.mp hamem with h2 | h2
      · exact h2
      have hle1 : a.sequence ≤ b.sequence := (List.pairwise_cons.mp hs1).1 b h1
      have hle2 : b.sequence ≤ a.sequence := (List.pairwise_cons.mp hs2).1 a h2
      exact List.inj_on_of_nodup_map hnd (List.mem_cons_self a t1) hbmem
        (le_antisymm hle1 hle2)
    subst hab
    have hrest := sorted_perm_nodup_eq t1 t2 hp.cons_inv
      (List.pairwise_cons.mp hs1).2 (List.pairwise_cons.mp hs2).2
      (by
        simp only [List.map_cons, List.nodup_cons] at hnd
        exact hnd.2)
    rw [hrest]

/-- The sequence comparison is transitive. -/
theorem seqLE_trans : ∀ a b c : Destination, seqLE a b → seqLE b c → seqLE a c := by
  intro a b c hab hbc
  simp only [seqLE, decide_eq_true_eq] at *
  exact le_trans hab hbc

/-- The sequence comparison is total. -/
theorem seqLE_total : ∀ a b : Destination, seqLE a b || seqLE b a := by
  intro a b
  simp only [seqLE, Bool.or_eq_true, decide_eq_true_eq]
  exact le_total a.sequence b.sequence

/-- Sorting by sequence is invariant under permutations of the input when the
sequence numbers are pairwise distinct. -/
theorem sortBySequence_eq_of_perm {l1 l2 : List Destination} (h : l1.Perm l2)
    (hnd : (l1.map Destination.sequence).Nodup) :
    sortBySequence l1 = sortBySequence l2 := by
  apply sorted_perm_nodup_eq
  · exact ((List.mergeSort_perm l1 seqLE).trans h).trans
      (List.mergeSort_perm l2 seqLE).symm
  · exact (List.sorted_mergeSort seqLE_trans seqLE_total l1).imp
      (fun hab => by simpa [seqLE] using hab)
  · exact (List.sorted_mergeSort seqLE_trans seqLE_total l2).imp
      (fun hab => by simpa [seqLE] using hab)
  · exact (((List.mergeSort_perm l1 seqLE).map Destination.sequence).nodup_iff).mpr hnd

/-- finishMulti only reads the length of the destination list. -/
theorem finishMulti_length_congr {l1 l2 : List Destination}
    (h : l1.length = l2.length) (empStdDuration : ℚ) (st : LegState) :
    finishMulti l1 empStdDuration st = finishMulti l2 empStdDuration st := by
  unfold finishMulti
  rw [h]

/-- C10 amended: when the destinations carry pairwise distinct sequence
numbers, permuting the input list does not change the prediction: the engine
sorts by sequence before computing any leg. -/
theorem c10_order_invariance (gd : Coord → Coord → ℚ)
    (api : Coord → Coord → ApiOutcome) (employee : Coord)
    (method conditions : String) (empStdDuration : ℚ)
    (l1 l2 : List Destination) (h : l1.Perm l2)
    (hnd : (l1.map Destination.sequence).Nodup) :
    predictMultiDestination gd api l1 employee method conditions empStdDuration =
      predictMultiDestination gd api l2 employee method conditions
        empStdDuration := by
  have hsort := sortBySequence_eq_of_perm h hnd
  unfold predictMultiDestination
  rw [h.length_eq, hsort]
  by_cases hl : l2.length < 2
  · rw [if_pos hl, if_pos hl]
  · rw [if_neg hl, if_neg hl]
    exact finishMulti_length_congr h.length_eq empStdDuration _

/-- A stop named A with sequence number 1. -/
def dDupA : Destination := ⟨1, "A", 15, 121⟩

/-- A stop named B that also carries sequence number 1. -/
def dDupB : Destination := ⟨1, "B", 16, 121⟩

/-- zeroResultsRoute restated through the apiZeroResults oracle. -/
theorem zeroResultsRouteApi (gd : Coord → Coord → ℚ) (o d : Coord)
    (method conditions : String) (hvo : validCoord o = true)
    (hvd : validCoord d = true) :
    getRouteWithConditions gd o d method conditions (apiZeroResults o d) =
      .impossible .zeroResults :=
  zeroResultsRoute gd o d method conditions hvo hvd

/-- C10 counterexample: two stops sharing sequence number 1.  The two input
orders are permutations of each other with every sequence number unchanged,
yet the predictions differ (the stable sort keeps the input order of the tied
stops, so the legs visit A then B in one run and B then A in the other). -/
theorem c10_counterexample :
    ([dDupA, dDupB].Perm [dDupB, dDupA]) ∧
      predictMultiDestination gdNear apiZeroResults [dDupA, dDupB] pManila
        "Drive" "Normal" 0 ≠
      predictMultiDestination gdNear apiZeroResults [dDupB, dDupA] pManila
        "Drive" "Normal" 0 := by
  have hvPM : validCoord pManila = true :=
    validCoord_true (by norm_num [pManila]) (by norm_num [pManila])
      (by norm_num [pManila]) (by norm_num [pManila])
  have hvA : validCoord (destCoord dDupA) = true :=
    validCoord_true (by norm_num [destCoord, dDupA])
      (by norm_num [destCoord, dDupA]) (by norm_num [destCoord, dDupA])
      (by norm_num [destCoord, dDupA])
  have hvB : validCoord (destCoord dDupB) = true :=
    validCoord_true (by norm_num [destCoord, dDupB])
      (by norm_num [destCoord, dDupB]) (by norm_num [destCoord, dDupB])
      (by norm_num [destCoord, dDupB])
  have hstep : ∀ (i : ℕ) (fromName : String) (dest : Destination)
      (st : LegState), validCoord st.currentPos = true →
      validCoord (destCoord dest) = true →
      legStep gdNear apiZeroResults "Drive" "Normal" i fromName dest st =
        { st with impossibleLegs := st.impossibleLegs ++
            [{ legNumber := i + 1, fromLocation := fromName,
               toLocation := dest.locationName, reason := .zeroResults }] } := by
    intro i fromName dest st h1 h2
    unfold legStep
    rw [zeroResultsRouteApi gdNear st.currentPos (destCoord dest) "Drive"
      "Normal" h1 h2]
  have hsort1 : sortBySequence [dDupA, dDupB] = [dDupA, dDupB] := by
    apply List.mergeSort_of_sorted
    simp [seqLE, dDupA, dDupB]
  have hsort2 : sortBySequence [dDupB, dDupA] = [dDupB, dDupA] := by
    apply List.mergeSort_of_sorted
    simp [seqLE, dDupA, dDupB]
  have hrun1 : predictMultiDestination gdNear apiZeroResults [dDupA, dDupB]
      pManila "Drive" "Normal" 0 =
      .impossibleRoute [⟨1, "Employee Start", "A", .zeroResults⟩,
        ⟨2, "A", "B", .zeroResults⟩] 2 := by
    unfold predictMultiDestination
    rw [if_neg (by simp), hsort1]
    simp only [legLoop]
    rw [hstep 0 "Employee Start" dDupA (initialLegState pManila)
      (by simpa [initialLegState] using hvPM) hvA]
    rw [hstep 1 dDupA.locationName dDupB _ (by simpa [initialLegState] using hvPM) hvB]
    simp [finishMulti, initialLegState, dDupA, dDupB]
  have hrun2 : predictMultiDestination gdNear apiZeroResults [dDupB, dDupA]
      pManila "Drive" "Normal" 0 =
      .impossibleRoute [⟨1, "Employee Start", "B", .zeroResults⟩,
        ⟨2, "B", "A", .zeroResults⟩] 2 := by
    unfold predictMultiDestination
    rw [if_neg (by simp), hsort2]
    simp only [legLoop]
    rw [hstep 0 "Employee Start" dDupB (initialLegState pManila)
      (by simpa [initialLegState] using hvPM) hvB]
    rw [hstep 1 dDupB.locationName dDupA _ (by simpa [initialLegState] using hvPM) hvA]
    simp [finishMulti, initialLegState, dDupA, dDupB]
  refine ⟨List.Perm.swap dDupB dDupA [], ?_⟩
  rw [hrun1, hrun2]
  simp

/-- C10 amended witness: the two-stop Rush Hour scenario, where the sequence
numbers 1 and 2 are distinct, run in both input orders. -/
theorem c10_witness :
    ([dStopA, dStopB].Perm [dStopB, dStopA] ∧
      ([dStopA, dStopB].map Destination.sequence).Nodup) ∧
      predictMultiDestination gdNear apiOkLeg [dStopA, dStopB] pManila "Drive"
        "Rush Hour" 0 =
      predictMultiDestination gdNear apiOkLeg [dStopB, dStopA] pManila "Drive"
        "Rush Hour" 0 :=
  ⟨⟨List.Perm.swap dStopB dStopA [], by simp [dStopA, dStopB]⟩,
    c10_order_invariance gdNear apiOkLeg pManila "Drive" "Rush Hour" 0
      [dStopA, dStopB] [dStopB, dStopA] (List.Perm.swap dStopB dStopA [])
      (by simp [dStopA, dStopB])⟩

end TaskRoute
